import Mathlib

/-!
Verification of the configuration system defined in
`src/lib/config/definitions.js` of factorioClusterio.

The file shallowly embeds the JavaScript module: JS classes with static
state become Lean structures, in-place mutation becomes explicit state
passing, and a thrown exception becomes an explicit error value carried
next to the state at the moment of the throw.  The companion module
`src/lib/config/classes.js` (ConfigGroup, PluginConfigGroup, Config and
the instance-level get/set/serialize machinery) is not among the
sources; every definition standing in for it is modelled from the spec
and marked as such in its doc comment.
-/

namespace Clusterio

/-- A JSON-style value, used for field defaults and configuration data. -/
inductive Jv where
  | str (s : String)
  | num (n : Int)
  | bool (b : Bool)
  | null
  | arr (elems : List Jv)
  | obj (fields : List (String × Jv))

/-- The closed enumeration of field types (spec section 3). -/
inductive FieldType where
  | string
  | number
  | boolean
  | object
  deriving DecidableEq, Repr

/-- A field default: absent, a literal, a zero-argument synchronous
generator, or a zero-argument asynchronous generator (spec sections 3
and 9). -/
inductive InitialValue where
  | absent
  | literal (v : Jv)
  | syncGenerator
  | asyncGenerator

/-- One field definition as passed to `ConfigGroup.define` in
`definitions.js`. -/
structure FieldDef where
  name : String
  type : FieldType
  optional : Bool := false
  initial_value : InitialValue := .absent
  title : Option String := none
  description : Option String := none

/-- Static state of a `ConfigGroup` subclass: its fixed `groupName`, the
ordered field definitions, the open/locked lifecycle flag, and the
capability marker distinguishing `PluginConfigGroup` subclasses
(spec section 9: the shape check maps to a capability marker). -/
structure ConfigGroup where
  groupName : String
  definitions : List FieldDef := []
  locked : Bool := false
  isPluginConfigGroup : Bool := false

/-- Errors thrown during schema construction and plugin registration. -/
inductive RegError where
  | duplicateField (groupName fieldName : String)
  | groupLocked (groupName : String)
  | notPluginConfigGroup (label pluginName : String)
  | misnamedGroup (label pluginName : String)
  | configLocked (groupName : String)
  | duplicateGroup (groupName : String)
  | groupNotFinalized (groupName : String)
  deriving DecidableEq, Repr

/-- Modelled from the spec: `ConfigGroup.define` lives in
`src/lib/config/classes.js`, which is not among the sources.  Per spec
section 4.1, `define(spec)` on an open group registers a FieldDefinition
and fails if the name already exists in the group or the group is
locked. -/
def ConfigGroup.define (g : ConfigGroup) (f : FieldDef) : Except RegError ConfigGroup :=
  if g.locked then
    .error (.groupLocked g.groupName)
  else if g.definitions.any (fun d => d.name = f.name) then
    .error (.duplicateField g.groupName f.name)
  else
    .ok { g with definitions := g.definitions ++ [f] }

/-- Modelled from the spec: `ConfigGroup.finalize` lives in
`src/lib/config/classes.js`, which is not among the sources.  Per spec
section 4.2, `finalize()` transitions Open to Locked and repeated calls
are a safe no-op. -/
def ConfigGroup.finalize (g : ConfigGroup) : ConfigGroup :=
  { g with locked := true }

/-- Static state of a `Config` subclass: the ordered registered groups
and the lock flag on the group set. -/
structure ConfigClass where
  groups : List ConfigGroup := []
  locked : Bool := false

/-- Modelled from the spec: `Config.registerGroup` lives in
`src/lib/config/classes.js`, which is not among the sources.  Per spec
section 4.3, it attaches a finalized group under its name and fails if
the Config is already locked, a group with that name is already
registered, or the supplied group is not itself finalized. -/
def ConfigClass.registerGroup (c : ConfigClass) (g : ConfigGroup) : Except RegError ConfigClass :=
  if c.locked then
    .error (.configLocked g.groupName)
  else if c.groups.any (fun h => h.groupName = g.groupName) then
    .error (.duplicateGroup g.groupName)
  else if !g.locked then
    .error (.groupNotFinalized g.groupName)
  else
    .ok { c with groups := c.groups ++ [g] }

/-- Modelled from the spec: `Config.finalize` locks the group set
(spec section 4.3). -/
def ConfigClass.finalize (c : ConfigClass) : ConfigClass :=
  { c with locked := true }

/-- `MasterGroup` as built at module load: `groupName = "master"`, the
eleven `define` calls of `definitions.js`, then `finalize()`. -/
def MasterGroupE : Except RegError ConfigGroup := do
  let g : ConfigGroup := { groupName := "master" }
  let g ← g.define {
    name := "database_directory", title := some "Database directory",
    description := some "Directory where item and configuration data is stored.",
    type := .string, initial_value := .literal (.str "database") }
  let g ← g.define {
    name := "factorio_directory",
    description := some "Path to directory to look for factorio installs",
    type := .string, initial_value := .literal (.str "factorio") }
  let g ← g.define {
    name := "http_port", title := some "HTTP Port",
    description := some "Port to listen for HTTP connections on, set to null to not listen for HTTP connections.",
    type := .number, optional := true }
  let g ← g.define {
    name := "https_port", title := some "HTTPS Port",
    description := some "Port to listen for HTTPS connection on, set to null to not listen for HTTPS connections.",
    type := .number, optional := true, initial_value := .literal (.num 8443) }
  let g ← g.define {
    name := "web_root", title := some "Web Root",
    description := some "Sub-path to where the web interface is hosted.  Needed when proxying the web interface.",
    type := .string, initial_value := .literal (.str "/") }
  let g ← g.define {
    name := "tls_certificate", title := some "TLS Certificate",
    description := some "Path to the certificate to use for HTTPS.",
    type := .string, optional := true,
    initial_value := .literal (.str "database/certificates/cert.crt") }
  let g ← g.define {
    name := "tls_private_key", title := some "TLS Private Key",
    description := some "Path to the private key to use for HTTPS.",
    type := .string, optional := true,
    initial_value := .literal (.str "database/certificates/cert.key") }
  let g ← g.define {
    name := "tls_bits", title := some "TLS Bits",
    description := some "Number of bits to use for auto generated TLS certificate.",
    type := .number, initial_value := .literal (.num 2048) }
  let g ← g.define {
    name := "auth_secret", title := some "Master Authentication Secret",
    description := some "Secret used to generate and verify authentication tokens.  Should be a long string of random letters and numbers.  Do not share this.",
    type := .string, initial_value := .asyncGenerator }
  let g ← g.define {
    name := "heartbeat_interval", title := some "Heartbeat Interval",
    description := some "Interval heartbeats are sent out on WebSocket connections",
    type := .number, initial_value := .literal (.num 60) }
  let g ← g.define {
    name := "connector_shutdown_timeout", title := some "Connector Shutdown Timeout",
    description := some "Timeout in seconds for connectors to properly disconnect on shutdown",
    type := .number, initial_value := .literal (.num 30) }
  pure g.finalize

/-- `SlaveGroup` as built at module load. -/
def SlaveGroupE : Except RegError ConfigGroup := do
  let g : ConfigGroup := { groupName := "slave" }
  let g ← g.define {
    name := "name", description := some "Name of the slave",
    type := .string, initial_value := .literal (.str "New Slave") }
  let g ← g.define {
    name := "id", description := some "ID of the slave",
    type := .number, initial_value := .syncGenerator }
  let g ← g.define {
    name := "factorio_directory",
    description := some "Path to directory to look for factorio installs",
    type := .string, initial_value := .literal (.str "factorio") }
  let g ← g.define {
    name := "instances_directory",
    description := some "Path to directory to store instances in.",
    type := .string, initial_value := .literal (.str "instances") }
  let g ← g.define {
    name := "master_url",
    description := some "URL to connect to the master server at",
    type := .string, initial_value := .literal (.str "https://localhost:8443/") }
  let g ← g.define {
    name := "master_token",
    description := some "Token to authenticate to master server with.",
    type := .string, initial_value := .literal (.str "enter token here") }
  let g ← g.define {
    name := "public_address",
    description := some "Public facing address players should connect to in order to join instances on this slave",
    type := .string, initial_value := .literal (.str "localhost") }
  let g ← g.define {
    name := "reconnect_delay", title := some "Reconnect Delay",
    description := some "Maximum delay to wait before attempting to reconnect WebSocket",
    type := .number, initial_value := .literal (.num 5) }
  pure g.finalize

/-- `InstanceGroup` as built at module load. -/
def InstanceGroupE : Except RegError ConfigGroup := do
  let g : ConfigGroup := { groupName := "instance" }
  let g ← g.define {
    name := "name", type := .string,
    initial_value := .literal (.str "New Instance") }
  let g ← g.define {
    name := "id", description := some "ID of the slave",
    type := .number, initial_value := .syncGenerator }
  let g ← g.define {
    name := "assigned_slave", type := .number, optional := true }
  pure g.finalize

/-- `FactorioGroup` as built at module load. -/
def FactorioGroupE : Except RegError ConfigGroup := do
  let g : ConfigGroup := { groupName := "factorio" }
  let g ← g.define {
    name := "version",
    description := some "Version of the game to run, use latest to run the latest installed version",
    type := .string, initial_value := .literal (.str "latest") }
  let g ← g.define {
    name := "game_port",
    description := some "UDP port to run game on, uses a random port if null",
    type := .number, optional := true }
  let g ← g.define {
    name := "rcon_port",
    description := some "TCP port to run RCON on, uses a random port if null",
    type := .number, optional := true }
  let g ← g.define {
    name := "rcon_password",
    description := some "Password for RCON, randomly generated if null",
    type := .string, optional := true }
  let g ← g.define {
    name := "settings",
    description := some "Settings overridden in server-settings.json",
    type := .object,
    initial_value := .literal (.obj [("tags", .arr [.str "clusterio"]), ("auto_pause", .bool false)]) }
  pure g.finalize

/-- `MasterConfig` static state after the module-load
`MasterConfig.registerGroup(MasterGroup)` call. -/
def MasterConfigE : Except RegError ConfigClass := do
  let g ← MasterGroupE
  ConfigClass.registerGroup {} g

/-- `SlaveConfig` static state after the module-load
`SlaveConfig.registerGroup(SlaveGroup)` call. -/
def SlaveConfigE : Except RegError ConfigClass := do
  let g ← SlaveGroupE
  ConfigClass.registerGroup {} g

/-- `InstanceConfig` static state after the module-load
`registerGroup(InstanceGroup)` and `registerGroup(FactorioGroup)` calls. -/
def InstanceConfigE : Except RegError ConfigClass := do
  let gi ← InstanceGroupE
  let gf ← FactorioGroupE
  let c ← ConfigClass.registerGroup {} gi
  ConfigClass.registerGroup c gf

/-- A plugin descriptor as consumed by `registerPluginConfigGroups`.
`MasterConfigGroup`/`InstanceConfigGroup` are `none` when the property
is absent or otherwise falsy; `instanceEntrypoint` records the
truthiness of the entrypoint property. -/
structure PluginInfo where
  name : String
  MasterConfigGroup : Option ConfigGroup := none
  InstanceConfigGroup : Option ConfigGroup := none
  instanceEntrypoint : Bool := false

/-- The fragment of the JavaScript value universe needed to evaluate the
expressions of `validateGroup`: a boolean primitive or a group object. -/
inductive JsVal where
  | bool (b : Bool)
  | groupObject (g : ConfigGroup)

/-- JavaScript truthiness on this fragment: objects are always truthy. -/
def JsVal.truthy : JsVal → Bool
  | .bool b => b
  | .groupObject _ => true

/-- The JavaScript `!` operator: negates the truthiness of its operand
and always yields a boolean primitive. -/
def jsNot (v : JsVal) : JsVal :=
  .bool (!v.truthy)

/-- The JavaScript expression `v instanceof classes.PluginConfigGroup`.
`instanceof` applied to a primitive (such as a boolean) is always
`false`; on a group object it consults the plugin-extensible-group
capability marker. -/
def jsInstanceofPluginConfigGroup : JsVal → Bool
  | .bool _ => false
  | .groupObject g => g.isPluginConfigGroup

/-- `validateGroup(pluginInfo, groupName)` from `definitions.js`,
lines 229-241, for a supplied group object `group =
pluginInfo[groupName]` (both call sites have established that the
property is truthy).  The first condition is embedded exactly as
written: `!pluginInfo[groupName] instanceof classes.PluginConfigGroup`
applies `!` before `instanceof`, so `instanceof` receives a boolean
primitive. -/
def validateGroup (pluginInfo : PluginInfo) (group : ConfigGroup) (label : String) :
    Except RegError Unit :=
  if jsInstanceofPluginConfigGroup (jsNot (.groupObject group)) then
    .error (.notPluginConfigGroup label pluginInfo.name)
  else if group.groupName ≠ pluginInfo.name then
    .error (.misnamedGroup label pluginInfo.name)
  else
    .ok ()

/-- The group synthesized by `registerPluginConfigGroups` for a plugin
that supplies no group of its own: a fresh `PluginConfigGroup` subclass
with `groupName` set to the plugin name and `finalize()` called
(`definitions.js`, lines 253-255 and 265-267). -/
def synthPluginGroup (pluginName : String) : ConfigGroup :=
  ConfigGroup.finalize { groupName := pluginName, isPluginConfigGroup := true }

/-- The mutable static state touched by `registerPluginConfigGroups`:
the `MasterConfig` and `InstanceConfig` group registries. -/
structure Configs where
  masterConfig : ConfigClass
  instanceConfig : ConfigClass

/-- The number of groups registered in a Config under a given name. -/
def groupNameCount (c : ConfigClass) (n : String) : Nat :=
  c.groups.countP (fun g => g.groupName = n)

/-- The `MasterConfigGroup` section of the `registerPluginConfigGroups`
loop body (`definitions.js`, lines 248-257): validate and register the
supplied group, or synthesize, finalize and register a fresh one.
Returns the registries when the section ends, paired with `some e` if
it threw `e` (the registries are then their state at the throw). -/
def masterStepRun (st : Configs) (pluginInfo : PluginInfo) : Configs × Option RegError :=
  match pluginInfo.MasterConfigGroup with
  | some group =>
    match validateGroup pluginInfo group "MasterConfigGroup" with
    | .error e => (st, some e)
    | .ok () =>
      match st.masterConfig.registerGroup group with
      | .error e => (st, some e)
      | .ok mc => ({ st with masterConfig := mc }, none)
  | none =>
    match st.masterConfig.registerGroup (synthPluginGroup pluginInfo.name) with
    | .error e => (st, some e)
    | .ok mc => ({ st with masterConfig := mc }, none)

/-- The `InstanceConfigGroup` section of the loop body
(`definitions.js`, lines 259-270): guarded by `instanceEntrypoint`,
otherwise the same pattern against `InstanceConfig`. -/
def instanceStepRun (st : Configs) (pluginInfo : PluginInfo) : Configs × Option RegError :=
  if pluginInfo.instanceEntrypoint then
    match pluginInfo.InstanceConfigGroup with
    | some group =>
      match validateGroup pluginInfo group "InstanceConfigGroup" with
      | .error e => (st, some e)
      | .ok () =>
        match st.instanceConfig.registerGroup group with
        | .error e => (st, some e)
        | .ok ic => ({ st with instanceConfig := ic }, none)
    | none =>
      match st.instanceConfig.registerGroup (synthPluginGroup pluginInfo.name) with
      | .error e => (st, some e)
      | .ok ic => ({ st with instanceConfig := ic }, none)
  else
    (st, none)

/-- One iteration of the `registerPluginConfigGroups` loop
(`definitions.js`, lines 247-271) for a single plugin descriptor: the
`MasterConfigGroup` section followed, if it did not throw, by the
`InstanceConfigGroup` section. -/
def processPluginRun (st : Configs) (pluginInfo : PluginInfo) : Configs × Option RegError :=
  match masterStepRun st pluginInfo with
  | (st1, some e) => (st1, some e)
  | (st1, none) => instanceStepRun st1 pluginInfo

/-- `registerPluginConfigGroups(pluginInfos)` (`definitions.js`, lines
246-272): the loop over the descriptors, stopping at the first thrown
error and leaving the registries in the state they had at the throw. -/
def registerPluginConfigGroupsRun (st : Configs) : List PluginInfo → Configs × Option RegError
  | [] => (st, none)
  | pluginInfo :: rest =>
    match processPluginRun st pluginInfo with
    | (st1, none) => registerPluginConfigGroupsRun st1 rest
    | (st1, some e) => (st1, some e)

/-- A yargs argument value: `undefined` when the positional was omitted,
otherwise the parsed value. -/
inductive JsArg where
  | undefined
  | null
  | str (s : String)
  | num (n : Int)
  deriving DecidableEq, Repr

/-- An exception reaching the `catch` blocks of `handleConfigCommand`:
an `InvalidField`, an `InvalidValue`, or any other error. -/
inductive CliError where
  | invalidField (msg : String)
  | invalidValue (msg : String)
  | other (msg : String)
  deriving DecidableEq, Repr

/-- One observable action performed by `handleConfigCommand`. -/
inductive Effect where
  | printedValue (v : Jv)
  | printedField (fullName : String) (v : Jv)
  | errorPrinted (msg : String)
  | calledSet (field : String) (value : JsArg)
  | wroteFile (path : String) (contents : String)

/-- Modelled from the spec: the runtime `Config` instance passed to
`handleConfigCommand` is implemented in `src/lib/config/classes.js`,
which is not among the sources.  Per spec sections 4.3 and 7 an
instance is observed through `get` (value or unknown-field error),
`set` (on success the instance is updated and `serialize()` yields the
document to persist; on failure an unknown-field or invalid-value
error), and the enumeration of all registered full names used by the
`list` command.  `setResult` returns the serialized JSON document
(`JSON.stringify(instance.serialize(), null, 4)`) of the updated
instance on success. -/
structure ConfigInstance where
  fullNames : List String
  getResult : String → Except CliError Jv
  setResult : String → JsArg → Except CliError String

/-- The `list` branch of `handleConfigCommand`: iterate every
definition of every registered group, print `fullName value`; an error
thrown by `instance.get` is not caught in this branch. -/
def listRun (inst : ConfigInstance) : List String → List Effect × Option CliError
  | [] => ([], none)
  | fullName :: rest =>
    match inst.getResult fullName with
    | .error e => ([], some e)
    | .ok v =>
      let (effs, oe) := listRun inst rest
      (.printedField fullName v :: effs, oe)

/-- The yargs argument object consumed by `handleConfigCommand`:
`positional` is `args._`, and `field`/`value` are the named
positionals of the `set`/`show` subcommands. -/
structure Args where
  positional : List String
  field : String
  value : JsArg := .undefined

/-- `handleConfigCommand(args, instance, configPath)` from
`definitions.js`, lines 304-342.  The result pairs the trace of
observable actions with `some e` when an exception `e` escapes the
function (the trace is then the actions performed before the throw). -/
def handleConfigCommand (args : Args) (inst : ConfigInstance) (configPath : String) :
    List Effect × Option CliError :=
  let command := args.positional[1]?
  if command = some "list" then
    listRun inst inst.fullNames
  else if command = some "show" then
    match inst.getResult args.field with
    | .ok v => ([.printedValue v], none)
    | .error (.invalidField msg) => ([.errorPrinted msg], none)
    | .error e => ([], some e)
  else if command = some "set" then
    let value := if args.value = .undefined then .null else args.value
    match inst.setResult args.field value with
    | .ok doc => ([.calledSet args.field value, .wroteFile configPath doc], none)
    | .error (.invalidField msg) => ([.calledSet args.field value, .errorPrinted msg], none)
    | .error (.invalidValue msg) => ([.calledSet args.field value, .errorPrinted msg], none)
    | .error e => ([.calledSet args.field value], some e)
  else
    ([], none)

/-- Arguments of a `set` invocation with the value omitted. -/
def argsSetOmitted : Args :=
  { positional := ["config", "set"], field := "master.http_port" }

/-- A concrete instance oracle whose `set` always succeeds. -/
def instAcceptAll : ConfigInstance :=
  { fullNames := [], getResult := fun _ => .error (.invalidField "no"),
    setResult := fun _ _ => .ok "doc" }

/-- Arguments of a `set` invocation supplying a value. -/
def argsSetName : Args :=
  { positional := ["config", "set"], field := "slave.name", value := .str "A" }

/-- A concrete instance oracle accepting exactly the value `"A"`. -/
def instAcceptA : ConfigInstance :=
  { fullNames := [], getResult := fun _ => .error (.invalidField "no"),
    setResult := fun _ v => if v = .str "A" then .ok "document-A" else .error (.invalidValue "bad") }

/-- Arguments of a `show` invocation for an unknown field. -/
def argsShowNope : Args :=
  { positional := ["config", "show"], field := "nope" }

/-- A concrete instance oracle whose `get` throws `InvalidField`. -/
def instUnknownField : ConfigInstance :=
  { fullNames := [], getResult := fun _ => .error (.invalidField "No field named nope"),
    setResult := fun _ _ => .ok "doc" }

/-- Arguments of an invocation with an unrecognized subcommand. -/
def argsFrobnicate : Args :=
  { positional := ["config", "frobnicate"], field := "f" }

/-- A concrete instance oracle answering every `get` and `set`. -/
def instAnswerAll : ConfigInstance :=
  { fullNames := ["instance.name"], getResult := fun _ => .ok (.str "x"),
    setResult := fun _ _ => .ok "doc" }

/-- The empty pair of registries, the starting state of concrete runs. -/
def emptyConfigs : Configs :=
  { masterConfig := {}, instanceConfig := {} }

/-- A finalized group that does not carry the plugin-extensible-group
capability, yet is named after its plugin. -/
def nonPluginGroup : ConfigGroup :=
  { groupName := "myplugin", locked := true, isPluginConfigGroup := false }

/-- A descriptor supplying `nonPluginGroup` as its `MasterConfigGroup`. -/
def nonPluginDescriptor : PluginInfo :=
  { name := "myplugin", MasterConfigGroup := some nonPluginGroup }

/-- A plugin-extensible finalized group named `"mismatch"`. -/
def mismatchedGroup : ConfigGroup :=
  { groupName := "mismatch", locked := true, isPluginConfigGroup := true }

/-- A descriptor whose `MasterConfigGroup.groupName` differs from the
descriptor name. -/
def misnamedDescriptor : PluginInfo :=
  { name := "myplugin", MasterConfigGroup := some mismatchedGroup }

/-- A descriptor with an instance entrypoint whose `InstanceConfigGroup`
is misnamed: its synthesized master group registers, then the
instance-group validation throws. -/
def partialDescriptor : PluginInfo :=
  { name := "part", InstanceConfigGroup := some mismatchedGroup, instanceEntrypoint := true }

/-- A plain descriptor named `"foo"` with no groups and no entrypoint. -/
def pluginFoo : PluginInfo :=
  { name := "foo" }

/-- A descriptor named `"baz"` with an instance entrypoint and no
supplied groups. -/
def pluginBaz : PluginInfo :=
  { name := "baz", instanceEntrypoint := true }

/-- The registries after registering `nonPluginDescriptor` alone. -/
def configsAfterNonPlugin : Configs :=
  { masterConfig := { groups := [nonPluginGroup] }, instanceConfig := {} }

/-- The registries after `partialDescriptor` threw: its synthesized
master group is registered, nothing else. -/
def configsAfterPartial : Configs :=
  { masterConfig := { groups := [synthPluginGroup "part"] }, instanceConfig := {} }

/-- The registries after registering `pluginFoo` alone. -/
def configsFoo : Configs :=
  { masterConfig := { groups := [synthPluginGroup "foo"] }, instanceConfig := {} }

/-- The registries after `pluginFoo` registered and `partialDescriptor`
threw. -/
def configsFooPart : Configs :=
  { masterConfig := { groups := [synthPluginGroup "foo", synthPluginGroup "part"] },
    instanceConfig := {} }

/-- The registries after registering `pluginBaz` alone. -/
def configsBaz : Configs :=
  { masterConfig := { groups := [synthPluginGroup "baz"] },
    instanceConfig := { groups := [synthPluginGroup "baz"] } }

/-- C5: For every invocation of handleConfigCommand with the "set"
command in which args.value is undefined (the value argument was
omitted), the value null is passed to instance.set for the named
field. -/
theorem setOmittedValuePassesNull (args : Args) (inst : ConfigInstance) (configPath : String)
    (hcmd : args.positional[1]? = some "set") (hval : args.value = .undefined) :
    (handleConfigCommand args inst configPath).1.head? =
      some (.calledSet args.field .null) := by
  simp only [handleConfigCommand, hcmd, hval]
  norm_num
  cases h : inst.setResult args.field JsArg.null with
  | ok doc => simp [h]
  | error e => cases e <;> simp [h]

/-- Concrete run of C5: a `set` invocation with the value omitted calls
`instance.set` with `null`. -/
theorem setOmittedValuePassesNull_witness :
    (handleConfigCommand argsSetOmitted instAcceptAll "config.json").1.head? =
      some (.calledSet "master.http_port" .null) :=
  setOmittedValuePassesNull _ _ _ rfl rfl

/-- C6: For every invocation of handleConfigCommand with the "set"
command: if instance.set succeeds, the whole serialized document is
written to configPath; if instance.set throws an InvalidField or
InvalidValue error, the error message is reported and no write to
configPath occurs. -/
theorem setPersistsOrReportsValidationError (args : Args) (inst : ConfigInstance)
    (configPath : String) (hcmd : args.positional[1]? = some "set") :
    let value := if args.value = .undefined then .null else args.value
    (∀ doc, inst.setResult args.field value = .ok doc →
      handleConfigCommand args inst configPath =
        ([.calledSet args.field value, .wroteFile configPath doc], none)) ∧
    (∀ msg, inst.setResult args.field value = .error (.invalidField msg) →
      handleConfigCommand args inst configPath =
        ([.calledSet args.field value, .errorPrinted msg], none)) ∧
    (∀ msg, inst.setResult args.field value = .error (.invalidValue msg) →
      handleConfigCommand args inst configPath =
        ([.calledSet args.field value, .errorPrinted msg], none)) := by
  refine ⟨fun doc h => ?_, fun msg h => ?_, fun msg h => ?_⟩ <;>
    simp only [handleConfigCommand, hcmd] <;> norm_num <;> simp [h]

/-- Concrete run of C6: a successful `set` writes the serialized
document. -/
theorem setPersistsOrReportsValidationError_witness :
    handleConfigCommand argsSetName instAcceptA "config.json" =
      ([.calledSet "slave.name" (.str "A"), .wroteFile "config.json" "document-A"], none) := by
  have h := setPersistsOrReportsValidationError argsSetName instAcceptA "config.json" rfl
  exact h.1 "document-A" rfl

/-- C7: For every invocation of handleConfigCommand with the "show"
command: a value returned by instance.get is printed; an InvalidField
error has its message printed as a field-not-found report; any other
exception propagates to the caller uncaught. -/
theorem showPrintsReportsOrPropagates (args : Args) (inst : ConfigInstance)
    (configPath : String) (hcmd : args.positional[1]? = some "show") :
    (∀ v, inst.getResult args.field = .ok v →
      handleConfigCommand args inst configPath = ([.printedValue v], none)) ∧
    (∀ msg, inst.getResult args.field = .error (.invalidField msg) →
      handleConfigCommand args inst configPath = ([.errorPrinted msg], none)) ∧
    (∀ msg, inst.getResult args.field = .error (.invalidValue msg) →
      handleConfigCommand args inst configPath = ([], some (.invalidValue msg))) ∧
    (∀ msg, inst.getResult args.field = .error (.other msg) →
      handleConfigCommand args inst configPath = ([], some (.other msg))) := by
  refine ⟨fun v h => ?_, fun msg h => ?_, fun msg h => ?_, fun msg h => ?_⟩ <;>
    simp only [handleConfigCommand, hcmd] <;> norm_num <;> simp [h]

/-- Concrete run of C7: an `InvalidField` from `get` is reported, not
propagated. -/
theorem showPrintsReportsOrPropagates_witness :
    handleConfigCommand argsShowNope instUnknownField "config.json" =
      ([.errorPrinted "No field named nope"], none) := by
  have h := showPrintsReportsOrPropagates argsShowNope instUnknownField "config.json" rfl
  exact h.2.1 "No field named nope" rfl

/-- C10: For every invocation of handleConfigCommand whose command
argument (args._[1]) is none of "list", "show", or "set", the function
returns without invoking any operation on the instance, writing any
file, or raising an error. -/
theorem unknownCommandDoesNothing (args : Args) (inst : ConfigInstance)
    (configPath : String) (hlist : args.positional[1]? ≠ some "list")
    (hshow : args.positional[1]? ≠ some "show")
    (hset : args.positional[1]? ≠ some "set") :
    handleConfigCommand args inst configPath = ([], none) := by
  simp only [handleConfigCommand]
  rw [if_neg hlist, if_neg hshow, if_neg hset]

/-- Concrete run of C10: an unrecognized subcommand produces no
effects and no error. -/
theorem unknownCommandDoesNothing_witness :
    handleConfigCommand argsFrobnicate instAnswerAll "config.json" = ([], none) :=
  unknownCommandDoesNothing _ _ _ (by decide) (by decide) (by decide)

/-- The capability condition of `validateGroup` as written never fires:
`!` is applied before `instanceof`, so `instanceof` always receives a
boolean primitive and evaluates to `false`.  `validateGroup` therefore
reduces to the name check alone. -/
theorem validateGroup_eq (p : PluginInfo) (g : ConfigGroup) (label : String) :
    validateGroup p g label =
      if g.groupName ≠ p.name then .error (.misnamedGroup label p.name) else .ok () :=
  rfl

/-- Characterization of a successful `registerGroup` call. -/
theorem registerGroup_ok {c c' : ConfigClass} {g : ConfigGroup}
    (h : c.registerGroup g = .ok c') :
    c' = { c with groups := c.groups ++ [g] } ∧
      c.groups.any (fun h₁ => h₁.groupName = g.groupName) = false ∧ g.locked = true := by
  unfold ConfigClass.registerGroup at h
  split_ifs at h with h1 h2 h3
  refine ⟨((Except.ok.injEq _ _).mp h).symm, ?_, ?_⟩
  · exact Bool.eq_false_iff.mpr h2
  · simpa using h3

/-- Characterization of a completed `MasterConfigGroup` section: exactly
one group, named after the plugin, is appended to `MasterConfig`; the
name was free before; `InstanceConfig` is untouched; when no group was
supplied, the appended group is the synthesized one. -/
theorem masterStepRun_ok {st st' : Configs} {p : PluginInfo}
    (h : masterStepRun st p = (st', none)) :
    ∃ g, g.groupName = p.name ∧
      st.masterConfig.groups.any (fun h₁ => h₁.groupName = p.name) = false ∧
      st'.masterConfig = { st.masterConfig with groups := st.masterConfig.groups ++ [g] } ∧
      st'.instanceConfig = st.instanceConfig ∧
      (p.MasterConfigGroup = none → g = synthPluginGroup p.name) := by
  unfold masterStepRun at h
  split at h
  next group hm =>
    rw [validateGroup_eq] at h
    by_cases hn : group.groupName = p.name
    · rw [if_neg (not_not_intro hn)] at h
      split at h
      next e hr0 => exact Except.noConfusion hr0
      next hr0 =>
        split at h
        next e hr => simp at h
        next mc hr =>
          obtain ⟨hc, hany, -⟩ := registerGroup_ok hr
          injection h with h1 h2
          subst h1
          refine ⟨group, hn, ?_, hc, rfl, ?_⟩
          · rw [← hn]; exact hany
          · intro habs; rw [hm] at habs; exact Option.noConfusion habs
    · rw [if_pos hn] at h
      simp at h
  next hm =>
    split at h
    next e hr => simp at h
    next mc hr =>
      obtain ⟨hc, hany, -⟩ := registerGroup_ok hr
      injection h with h1 h2
      subst h1
      exact ⟨synthPluginGroup p.name, rfl, hany, hc, rfl, fun _ => rfl⟩

/-- A `MasterConfigGroup` section that throws leaves both registries
untouched. -/
theorem masterStepRun_err {st st' : Configs} {p : PluginInfo} {e : RegError}
    (h : masterStepRun st p = (st', some e)) : st' = st := by
  unfold masterStepRun at h
  split at h
  next group hm =>
    rw [validateGroup_eq] at h
    by_cases hn : group.groupName = p.name
    · rw [if_neg (not_not_intro hn)] at h
      split at h
      next e0 hr0 => exact Except.noConfusion hr0
      next hr0 =>
        split at h
        next e0 hr =>
          injection h with h1 h2
          exact h1.symm
        next mc hr => simp at h
    · rw [if_pos hn] at h
      simp only [Prod.mk.injEq] at h
      exact h.1.symm
  next hm =>
    split at h
    next e0 hr =>
      injection h with h1 h2
      exact h1.symm
    next mc hr => simp at h

/-- Characterization of a completed `InstanceConfigGroup` section. -/
theorem instanceStepRun_ok {st st' : Configs} {p : PluginInfo}
    (h : instanceStepRun st p = (st', none)) :
    st'.masterConfig = st.masterConfig ∧
      (p.instanceEntrypoint = true →
        ∃ g, g.groupName = p.name ∧
          st'.instanceConfig = { st.instanceConfig with groups := st.instanceConfig.groups ++ [g] } ∧
          (p.InstanceConfigGroup = none → g = synthPluginGroup p.name)) ∧
      (p.instanceEntrypoint = false → st' = st) := by
  unfold instanceStepRun at h
  by_cases he : p.instanceEntrypoint = true
  · rw [if_pos he] at h
    split at h
    next group hm =>
      rw [validateGroup_eq] at h
      by_cases hn : group.groupName = p.name
      · rw [if_neg (not_not_intro hn)] at h
        split at h
        next e hr0 => exact Except.noConfusion hr0
        next hr0 =>
          split at h
          next e hr => simp at h
          next ic hr =>
            obtain ⟨hc, -, -⟩ := registerGroup_ok hr
            injection h with h1 h2
            subst h1
            refine ⟨rfl, fun _ => ⟨group, hn, ?_, ?_⟩, fun habs => absurd he (by simp [habs])⟩
            · rw [hc]
            · intro habs; rw [hm] at habs; exact Option.noConfusion habs
      · rw [if_pos hn] at h
        simp at h
    next hm =>
      split at h
      next e hr => simp at h
      next ic hr =>
        obtain ⟨hc, -, -⟩ := registerGroup_ok hr
        injection h with h1 h2
        subst h1
        refine ⟨rfl, fun _ => ⟨synthPluginGroup p.name, rfl, ?_, fun _ => rfl⟩,
          fun habs => absurd he (by simp [habs])⟩
        rw [hc]
  · rw [if_neg he] at h
    injection h with h1 h2
    subst h1
    exact ⟨rfl, fun htr => absurd htr he, fun _ => rfl⟩

/-- An `InstanceConfigGroup` section that throws leaves both registries
untouched. -/
theorem instanceStepRun_err {st st' : Configs} {p : PluginInfo} {e : RegError}
    (h : instanceStepRun st p = (st', some e)) : st' = st := by
  unfold instanceStepRun at h
  by_cases he : p.instanceEntrypoint = true
  · rw [if_pos he] at h
    split at h
    next group hm =>
      rw [validateGroup_eq] at h
      by_cases hn : group.groupName = p.name
      · rw [if_neg (not_not_intro hn)] at h
        split at h
        next e0 hr0 => exact Except.noConfusion hr0
        next hr0 =>
          split at h
          next e0 hr =>
            injection h with h1 h2
            exact h1.symm
          next ic hr => simp at h
      · rw [if_pos hn] at h
        simp only [Prod.mk.injEq] at h
        exact h.1.symm
    next hm =>
      split at h
      next e0 hr =>
        injection h with h1 h2
        exact h1.symm
      next ic hr => simp at h
  · rw [if_neg he] at h
    simp at h

/-- Characterization of a loop iteration that completed without
throwing. -/
theorem processPluginRun_ok {st st' : Configs} {p : PluginInfo}
    (h : processPluginRun st p = (st', none)) :
    ∃ g, g.groupName = p.name ∧
      st.masterConfig.groups.any (fun h₁ => h₁.groupName = p.name) = false ∧
      st'.masterConfig = { st.masterConfig with groups := st.masterConfig.groups ++ [g] } ∧
      (p.MasterConfigGroup = none → g = synthPluginGroup p.name) ∧
      (p.instanceEntrypoint = true →
        ∃ gi, gi.groupName = p.name ∧
          st'.instanceConfig = { st.instanceConfig with
            groups := st.instanceConfig.groups ++ [gi] }) ∧
      (p.instanceEntrypoint = false → st'.instanceConfig = st.instanceConfig) := by
  unfold processPluginRun at h
  split at h
  next st1 e hm => simp at h
  next st1 hm =>
    obtain ⟨g, hg1, hany, hmc, hic, hsyn⟩ := masterStepRun_ok hm
    obtain ⟨hmc2, hinst, hninst⟩ := instanceStepRun_ok h
    refine ⟨g, hg1, hany, by rw [hmc2, hmc], hsyn, ?_, ?_⟩
    · intro htr
      obtain ⟨gi, hgi1, hgi2, -⟩ := hinst htr
      exact ⟨gi, hgi1, by rw [hgi2, hic]⟩
    · intro hfa
      rw [hninst hfa, hic]

/-- A loop iteration that threw either left the registries untouched or
appended exactly the master group of the failing descriptor. -/
theorem processPluginRun_err {st st' : Configs} {p : PluginInfo} {e : RegError}
    (h : processPluginRun st p = (st', some e)) :
    st' = st ∨ ∃ g, g.groupName = p.name ∧
      st'.masterConfig = { st.masterConfig with groups := st.masterConfig.groups ++ [g] } ∧
      st'.instanceConfig = st.instanceConfig := by
  unfold processPluginRun at h
  split at h
  next st1 e0 hm =>
    injection h with h1 h2
    subst h1
    exact Or.inl (masterStepRun_err hm)
  next st1 hm =>
    obtain ⟨g, hg1, -, hmc, hic, -⟩ := masterStepRun_ok hm
    have h1 := instanceStepRun_err h
    subst h1
    exact Or.inr ⟨g, hg1, hmc, hic⟩

/-- Unfolding the loop once on a run that completes. -/
theorem run_ok_cons {st st' : Configs} {p : PluginInfo} {ps : List PluginInfo}
    (h : registerPluginConfigGroupsRun st (p :: ps) = (st', none)) :
    ∃ st1, processPluginRun st p = (st1, none) ∧
      registerPluginConfigGroupsRun st1 ps = (st', none) := by
  unfold registerPluginConfigGroupsRun at h
  split at h
  next st1 hp => exact ⟨st1, hp, h⟩
  next st1 e hp => simp at h

/-- A completed run over a prefix composes with the run of the rest. -/
theorem run_append {st sti : Configs} {pre : List PluginInfo} (rest : List PluginInfo)
    (hpre : registerPluginConfigGroupsRun st pre = (sti, none)) :
    registerPluginConfigGroupsRun st (pre ++ rest) =
      registerPluginConfigGroupsRun sti rest := by
  induction pre generalizing st with
  | nil =>
    unfold registerPluginConfigGroupsRun at hpre
    injection hpre with h1 h2
    rw [List.nil_append, h1]
  | cons q qs ih =>
    obtain ⟨st1, hq, hrest⟩ := run_ok_cons hpre
    rw [List.cons_append]
    show (match processPluginRun st q with
      | (st1, none) => registerPluginConfigGroupsRun st1 (qs ++ rest)
      | (st1, some e) => (st1, some e)) = registerPluginConfigGroupsRun sti rest
    rw [hq]
    exact ih hrest

/-- A completed loop iteration never removes a master group: the group
list is only extended. -/
theorem processPluginRun_mono {st st' : Configs} {p : PluginInfo} {oe : Option RegError}
    (h : processPluginRun st p = (st', oe)) :
    (∃ t, st'.masterConfig.groups = st.masterConfig.groups ++ t) ∧
      (∃ t, st'.instanceConfig.groups = st.instanceConfig.groups ++ t) := by
  cases oe with
  | none =>
    obtain ⟨g, -, -, hmc, -, hi, hni⟩ := processPluginRun_ok h
    refine ⟨⟨[g], by rw [hmc]⟩, ?_⟩
    cases he : p.instanceEntrypoint with
    | true =>
      obtain ⟨gi, -, hgi⟩ := hi he
      exact ⟨[gi], by rw [hgi]⟩
    | false =>
      exact ⟨[], by rw [hni he, List.append_nil]⟩
  | some e =>
    rcases processPluginRun_err h with h1 | ⟨g, -, hmc, hic⟩
    · subst h1
      exact ⟨⟨[], (List.append_nil _).symm⟩, ⟨[], (List.append_nil _).symm⟩⟩
    · exact ⟨⟨[g], by rw [hmc]⟩, ⟨[], by rw [hic, List.append_nil]⟩⟩

/-- A whole run, whether it completes or throws, only extends the group
lists of the registries. -/
theorem run_mono {st st' : Configs} {ps : List PluginInfo} {oe : Option RegError}
    (h : registerPluginConfigGroupsRun st ps = (st', oe)) :
    (∃ t, st'.masterConfig.groups = st.masterConfig.groups ++ t) ∧
      (∃ t, st'.instanceConfig.groups = st.instanceConfig.groups ++ t) := by
  induction ps generalizing st with
  | nil =>
    unfold registerPluginConfigGroupsRun at h
    injection h with h1 h2
    subst h1
    exact ⟨⟨[], (List.append_nil _).symm⟩, ⟨[], (List.append_nil _).symm⟩⟩
  | cons q qs ih =>
    unfold registerPluginConfigGroupsRun at h
    split at h
    next st1 hq =>
      obtain ⟨⟨t1, ht1⟩, ⟨t2, ht2⟩⟩ := processPluginRun_mono hq
      obtain ⟨⟨t3, ht3⟩, ⟨t4, ht4⟩⟩ := ih h
      exact ⟨⟨t1 ++ t3, by rw [ht3, ht1, List.append_assoc]⟩,
        ⟨t2 ++ t4, by rw [ht4, ht2, List.append_assoc]⟩⟩
    next st1 e hq =>
      injection h with h1 h2
      subst h1
      exact processPluginRun_mono hq

/-- If no registered group of a Config bears a name, that name has
count zero. -/
theorem count_zero_of_any_false {c : ConfigClass} {n : String}
    (h : c.groups.any (fun h₁ => h₁.groupName = n) = false) : groupNameCount c n = 0 := by
  rw [groupNameCount, List.countP_eq_zero]
  intro a ha hp
  have h2 : c.groups.any (fun h₁ => h₁.groupName = n) = true :=
    List.any_eq_true.mpr ⟨a, ha, hp⟩
  rw [h] at h2
  exact Bool.noConfusion h2

/-- A completed loop iteration preserves the count of any master group
name that is already present. -/
theorem processPluginRun_ok_count {st st' : Configs} {p : PluginInfo}
    (h : processPluginRun st p = (st', none)) {n : String}
    (hn : 1 ≤ groupNameCount st.masterConfig n) :
    groupNameCount st'.masterConfig n = groupNameCount st.masterConfig n := by
  obtain ⟨g, hg1, hany, hmc, -, -, -⟩ := processPluginRun_ok h
  have hz : groupNameCount st.masterConfig p.name = 0 := count_zero_of_any_false hany
  have hgn : ¬(g.groupName = n) := by
    intro hcontra
    rw [hg1] at hcontra
    rw [hcontra] at hz
    omega
  unfold groupNameCount at hn ⊢
  rw [hmc]
  dsimp only
  rw [List.countP_append]
  simp [hgn]

/-- A completed run preserves the count of any master group name that
was present when it started. -/
theorem run_ok_count {st st' : Configs} {ps : List PluginInfo}
    (h : registerPluginConfigGroupsRun st ps = (st', none)) {n : String}
    (hn : 1 ≤ groupNameCount st.masterConfig n) :
    groupNameCount st'.masterConfig n = groupNameCount st.masterConfig n := by
  induction ps generalizing st with
  | nil =>
    unfold registerPluginConfigGroupsRun at h
    injection h with h1 h2
    rw [← h1]
  | cons q qs ih =>
    obtain ⟨st1, hq, hrest⟩ := run_ok_cons h
    have hstep := processPluginRun_ok_count hq hn
    rw [ih hrest (by rw [hstep]; exact hn), hstep]

/-- A run never removes a group already registered in `MasterConfig`. -/
theorem run_mem {st st' : Configs} {ps : List PluginInfo} {oe : Option RegError}
    (h : registerPluginConfigGroupsRun st ps = (st', oe)) {x : ConfigGroup}
    (hx : x ∈ st.masterConfig.groups) : x ∈ st'.masterConfig.groups := by
  obtain ⟨⟨t, ht⟩, -⟩ := run_mono h
  rw [ht]
  exact List.mem_append_left _ hx

/-- C1 (code defect evidence): a supplied `MasterConfigGroup` that is
not a plugin-extensible group, yet is named after its plugin, is
registered into `MasterConfig` without any error: the condition
`!pluginInfo[groupName] instanceof classes.PluginConfigGroup` applies
`!` before `instanceof` and therefore never fires. -/
theorem nonPluginGroupRegisteredWithoutError :
    registerPluginConfigGroupsRun emptyConfigs [nonPluginDescriptor] =
      (configsAfterNonPlugin, none) ∧
    nonPluginGroup ∈ configsAfterNonPlugin.masterConfig.groups ∧
    nonPluginGroup.isPluginConfigGroup = false :=
  ⟨rfl, List.Mem.head _, rfl⟩

/-- C2: a descriptor whose `MasterConfigGroup.groupName` differs from
the descriptor name makes the loop iteration throw the misnamed-group
error raised by the `validateGroup` name check, with both registries
exactly as before: the `registerGroup` call for that descriptor is
never reached. -/
theorem misnamedGroupThrowsBeforeRegister (st : Configs) {p : PluginInfo} {g : ConfigGroup}
    (hsup : p.MasterConfigGroup = some g) (hname : g.groupName ≠ p.name) :
    processPluginRun st p = (st, some (.misnamedGroup "MasterConfigGroup" p.name)) := by
  unfold processPluginRun masterStepRun
  simp only [hsup]
  rw [validateGroup_eq, if_pos hname]

/-- Concrete run of C2: a misnamed supplied master group throws and
registers nothing. -/
theorem misnamedGroupThrowsBeforeRegister_witness :
    processPluginRun emptyConfigs misnamedDescriptor =
      (emptyConfigs, some (.misnamedGroup "MasterConfigGroup" "myplugin")) :=
  misnamedGroupThrowsBeforeRegister emptyConfigs rfl (by decide)

/-- C3: in a completed run, every plugin ends up with exactly one
master group named after it, and a plugin that supplied no
`MasterConfigGroup` got the synthesized finalized, empty,
plugin-extensible group named after it registered into
`MasterConfig`. -/
theorem pluginGetsExactlyOneMasterGroup {st st' : Configs} {ps : List PluginInfo}
    {p : PluginInfo} (hrun : registerPluginConfigGroupsRun st ps = (st', none))
    (hmem : p ∈ ps) :
    groupNameCount st'.masterConfig p.name = 1 ∧
    (p.MasterConfigGroup = none →
      synthPluginGroup p.name ∈ st'.masterConfig.groups ∧
      (synthPluginGroup p.name).groupName = p.name ∧
      (synthPluginGroup p.name).definitions = [] ∧
      (synthPluginGroup p.name).locked = true ∧
      (synthPluginGroup p.name).isPluginConfigGroup = true) := by
  induction ps generalizing st with
  | nil => cases hmem
  | cons q qs ih =>
    obtain ⟨st1, hq, hrest⟩ := run_ok_cons hrun
    rcases List.mem_cons.mp hmem with rfl | hmem2
    · obtain ⟨g, hg1, hany, hmc, hsyn, -, -⟩ := processPluginRun_ok hq
      have hz : groupNameCount st.masterConfig p.name = 0 := count_zero_of_any_false hany
      have h1 : groupNameCount st1.masterConfig p.name = 1 := by
        unfold groupNameCount at hz ⊢
        rw [hmc]
        dsimp only
        rw [List.countP_append, hz]
        simp [hg1]
      refine ⟨by rw [run_ok_count hrest (by omega), h1], ?_⟩
      intro habs
      obtain rfl := hsyn habs
      refine ⟨run_mem hrest ?_, rfl, rfl, rfl, rfl⟩
      rw [hmc]
      exact List.mem_append_right _ (List.mem_singleton_self _)
    · exact ih hrest hmem2

/-- Concrete run of C3: a plugin named `"foo"` with no supplied group
ends up with exactly its synthesized group under `MasterConfig`. -/
theorem pluginGetsExactlyOneMasterGroup_witness :
    groupNameCount configsFoo.masterConfig "foo" = 1 ∧
      synthPluginGroup "foo" ∈ configsFoo.masterConfig.groups := by
  have h := @pluginGetsExactlyOneMasterGroup emptyConfigs configsFoo [pluginFoo]
    pluginFoo rfl (List.Mem.head _)
  exact ⟨h.1, (h.2 rfl).1⟩

/-- C4: a completed loop iteration registers a group into
`InstanceConfig` exactly when the descriptor has `instanceEntrypoint`
set; without it, `InstanceConfig` is untouched even when an
`InstanceConfigGroup` is supplied. -/
theorem instanceGroupIffEntrypoint {st st' : Configs} {p : PluginInfo}
    (h : processPluginRun st p = (st', none)) :
    (p.instanceEntrypoint = true →
      ∃ g, g.groupName = p.name ∧
        st'.instanceConfig.groups = st.instanceConfig.groups ++ [g]) ∧
    (p.instanceEntrypoint = false → st'.instanceConfig = st.instanceConfig) := by
  obtain ⟨g, -, -, -, -, hi, hni⟩ := processPluginRun_ok h
  refine ⟨fun htr => ?_, hni⟩
  obtain ⟨gi, hgi1, hgi2⟩ := hi htr
  exact ⟨gi, hgi1, by rw [hgi2]⟩

/-- Concrete run of C4: a descriptor with an instance entrypoint and no
supplied groups gets an instance-level group. -/
theorem instanceGroupIffEntrypoint_witness :
    ∃ g, g.groupName = pluginBaz.name ∧
      configsBaz.instanceConfig.groups = emptyConfigs.instanceConfig.groups ++ [g] :=
  (@instanceGroupIffEntrypoint emptyConfigs configsBaz pluginBaz rfl).1 rfl

/-- C8 counterexample: for `partialDescriptor`, validation throws for
the descriptor, yet a group from that same descriptor (its synthesized
master group) is registered — refuting that no group from the throwing
descriptor is registered. -/
theorem registrationNotAtomic_counterexample :
    registerPluginConfigGroupsRun emptyConfigs [partialDescriptor] =
      (configsAfterPartial, some (.misnamedGroup "InstanceConfigGroup" "part")) ∧
    synthPluginGroup "part" ∈ configsAfterPartial.masterConfig.groups :=
  ⟨rfl, List.Mem.head _⟩

/-- C8 (amended): the loop is processed in order and is not atomic: if
an iteration throws, the run stops there; everything registered for
earlier descriptors remains; no group from any later descriptor is
registered; and the throwing descriptor itself contributed either
nothing (when its master-group path threw) or exactly its master group
(when its instance-group path threw). -/
theorem registrationStopsAtThrow {st sti stp : Configs} {pre : List PluginInfo}
    (post : List PluginInfo) {p : PluginInfo} {e : RegError}
    (hpre : registerPluginConfigGroupsRun st pre = (sti, none))
    (hp : processPluginRun sti p = (stp, some e)) :
    registerPluginConfigGroupsRun st (pre ++ p :: post) = (stp, some e) ∧
    (∃ t, sti.masterConfig.groups = st.masterConfig.groups ++ t) ∧
    (∃ t, sti.instanceConfig.groups = st.instanceConfig.groups ++ t) ∧
    (stp = sti ∨ ∃ g, g.groupName = p.name ∧
      stp.masterConfig = { sti.masterConfig with groups := sti.masterConfig.groups ++ [g] } ∧
      stp.instanceConfig = sti.instanceConfig) := by
  refine ⟨?_, (run_mono hpre).1, (run_mono hpre).2, processPluginRun_err hp⟩
  rw [run_append (p :: post) hpre]
  unfold registerPluginConfigGroupsRun
  rw [hp]

/-- Concrete run of C8 (amended): `pluginFoo` registers, then
`partialDescriptor` throws after registering its master group, and
`pluginBaz` after it contributes nothing. -/
theorem registrationStopsAtThrow_witness :
    registerPluginConfigGroupsRun emptyConfigs
        ([pluginFoo] ++ partialDescriptor :: [pluginBaz]) =
      (configsFooPart, some (.misnamedGroup "InstanceConfigGroup" "part")) :=
  (@registrationStopsAtThrow emptyConfigs configsFoo configsFooPart [pluginFoo]
    [pluginBaz] partialDescriptor (RegError.misnamedGroup "InstanceConfigGroup" "part")
    rfl rfl).1

/-- C9: every group `definitions.js` registers into a Config — the four
base groups behind `MasterConfig`, `SlaveConfig` and `InstanceConfig`,
and every auto-synthesized plugin group — is finalized before the
corresponding `registerGroup` call: each registration succeeds and
every registered group is locked. -/
theorem allRegisteredGroupsFinalized :
    (∃ c, MasterConfigE = Except.ok c ∧ c.groups.all (fun g => g.locked) = true) ∧
    (∃ c, SlaveConfigE = Except.ok c ∧ c.groups.all (fun g => g.locked) = true) ∧
    (∃ c, InstanceConfigE = Except.ok c ∧ c.groups.all (fun g => g.locked) = true) ∧
    (∀ n, (synthPluginGroup n).locked = true) :=
  ⟨⟨_, rfl, rfl⟩, ⟨_, rfl, rfl⟩, ⟨_, rfl, rfl⟩, fun _ => rfl⟩

end Clusterio
